import Mathlib

/-!
Verification of the input-translation loop of `src/run_controller_cli.py`
(the `gamepad_proxy` coroutine and the teardown in `_main`) against its
natural-language specification.

The embedding is shallow: the dispatch logic of `gamepad_proxy` is translated
directly from the source; the external collaborators it calls
(`joycontrol.controller_state`: `button_press`, `button_release`,
`StickState.set_h` / `set_v`, `ControllerState.send`) are not part of `src/`
and are modelled from the spec, as pure mutators of an explicit state.
Every call the loop makes to a collaborator is recorded in a trace of
operations, so that flush policy, logging, yielding and termination behaviour
become statements about the trace.
-/

namespace ShockBoy

/-- Which analog stick (spec glossary: stick side). -/
inductive StickSide
  | left
  | right
  deriving DecidableEq

/-- Which axis of a stick (spec glossary: stick direction). -/
inductive StickDir
  | horizontal
  | vertical
  deriving DecidableEq

/-- The fixed enumerated set of logical buttons (spec glossary); the source
passes these as string tags to `button_press` / `button_release`. -/
inductive LogicalButton
  | y
  | b
  | a
  | x
  | l
  | r
  | zl
  | zr
  | minus
  | plus
  | l_stick
  | r_stick
  | home
  | capture
  deriving DecidableEq

/-- A physical input event, as produced by pygame and consumed by
`gamepad_proxy`: `JOYAXISMOTION` carries `event.axis` and `event.value`
(a float in `[-1, 1]`, modelled as a rational, since the loop only moves it
around and never computes with it), `JOYBUTTONDOWN` / `JOYBUTTONUP` carry
`event.button`. -/
inductive PhysEvent
  | axisMotion (axis : Nat) (value : ℚ)
  | buttonDown (button : Nat)
  | buttonUp (button : Nat)
  deriving DecidableEq

/-- One stick of the virtual controller: a horizontal and a vertical
coordinate.  The source stores whatever `set_h` / `set_v` receive, so the
carrier is ℚ (the loop passes the raw float through unchanged). -/
structure StickState where
  h : ℚ
  v : ℚ
  deriving DecidableEq

/-- The Virtual Controller State visible to the loop: two sticks and the
held-button set (spec section 3). -/
structure ControllerState where
  l_stick_state : StickState
  r_stick_state : StickState
  held : Finset LogicalButton
  deriving DecidableEq

/-- Modelled from the spec: `StickState.set_h` of `joycontrol.controller_state`
(not under `src/`) is the spec's `set_axis` mutator on the horizontal
coordinate — it stores the value it is given (spec sections 3 and 6). -/
def StickState.set_h (st : StickState) (value : ℚ) : StickState :=
  { st with h := value }

/-- Modelled from the spec: `StickState.set_v` of `joycontrol.controller_state`
(not under `src/`) is the spec's `set_axis` mutator on the vertical
coordinate — it stores the value it is given (spec sections 3 and 6). -/
def StickState.set_v (st : StickState) (value : ℚ) : StickState :=
  { st with v := value }

/-- An operation the loop performs on its external collaborators.  `poll` is
the `pygame.event.get()` call; the remaining constructors are the calls of the
Virtual Controller State interface (spec section 6).  `send` and `logMsg` are
part of that interface but, as the theorems below establish, are never emitted
by the loop. -/
inductive Op
  | poll
  | setAxis (side : StickSide) (dir : StickDir) (value : ℚ)
  | press (btn : LogicalButton)
  | release (btn : LogicalButton)
  | send
  | logMsg
  deriving DecidableEq

/-- Modelled from the spec: `button_press` of `joycontrol.controller_state`
(not under `src/`) invokes press on the Virtual Controller State, adding the
logical button to the held-button set; per spec sections 4.3 and 6 press does
not itself trigger a `send()`. -/
def button_press (s : ControllerState) (btn : LogicalButton) :
    ControllerState × List Op :=
  ({ s with held := insert btn s.held }, [Op.press btn])

/-- Modelled from the spec: `button_release` of `joycontrol.controller_state`
(not under `src/`) invokes release on the Virtual Controller State, removing
the logical button from the held-button set; per spec sections 4.3 and 6
release does not itself trigger a `send()`. -/
def button_release (s : ControllerState) (btn : LogicalButton) :
    ControllerState × List Op :=
  ({ s with held := s.held.erase btn }, [Op.release btn])

/-- Modelled from the spec: `ControllerState.send` flushes the current state
over the session and either succeeds or fails with a connection-lost
condition (spec section 6).  The definition exists to state claims about
`send()`; the loop in the source never calls it. -/
def send (connectionAlive : Bool) : Except Unit Unit :=
  if connectionAlive then Except.ok () else Except.error ()

/-- Sequencing helper for the translated `if` chains: the previous
accumulated state/trace followed by one collaborator call. -/
def thenCall (acc : ControllerState × List Op) (r : ControllerState × List Op) :
    ControllerState × List Op :=
  (r.1, acc.2 ++ r.2)

/-- The `JOYAXISMOTION` branch of `gamepad_proxy` (source lines 78-90): four
independent `if` tests on `event.axis`, each mutating one stick coordinate via
`set_h` / `set_v` with the raw `event.value`.  The `print` calls of the source
are not modelled (stdout only, no state effect, no claim mentions them). -/
def handleAxis (s : ControllerState) (axis : Nat) (value : ℚ) :
    ControllerState × List Op :=
  let acc := (s, ([] : List Op))
  let acc := if axis = 0 then
    thenCall acc ({ acc.1 with l_stick_state := acc.1.l_stick_state.set_h value },
      [Op.setAxis StickSide.left StickDir.horizontal value]) else acc
  let acc := if axis = 1 then
    thenCall acc ({ acc.1 with l_stick_state := acc.1.l_stick_state.set_v value },
      [Op.setAxis StickSide.left StickDir.vertical value]) else acc
  let acc := if axis = 2 then
    thenCall acc ({ acc.1 with r_stick_state := acc.1.r_stick_state.set_h value },
      [Op.setAxis StickSide.right StickDir.horizontal value]) else acc
  let acc := if axis = 3 then
    thenCall acc ({ acc.1 with r_stick_state := acc.1.r_stick_state.set_v value },
      [Op.setAxis StickSide.right StickDir.vertical value]) else acc
  acc

/-- The `JOYBUTTONDOWN` branch of `gamepad_proxy` (source lines 93-135):
fourteen independent `if` tests on `event.button`, each awaiting
`button_press` with the corresponding logical button.  `print` calls are not
modelled. -/
def handleButtonDown (s : ControllerState) (button : Nat) :
    ControllerState × List Op :=
  let acc := (s, ([] : List Op))
  let acc := if button = 0 then thenCall acc (button_press acc.1 LogicalButton.y) else acc
  let acc := if button = 1 then thenCall acc (button_press acc.1 LogicalButton.b) else acc
  let acc := if button = 2 then thenCall acc (button_press acc.1 LogicalButton.a) else acc
  let acc := if button = 3 then thenCall acc (button_press acc.1 LogicalButton.x) else acc
  let acc := if button = 4 then thenCall acc (button_press acc.1 LogicalButton.l) else acc
  let acc := if button = 5 then thenCall acc (button_press acc.1 LogicalButton.r) else acc
  let acc := if button = 6 then thenCall acc (button_press acc.1 LogicalButton.zl) else acc
  let acc := if button = 7 then thenCall acc (button_press acc.1 LogicalButton.zr) else acc
  let acc := if button = 8 then thenCall acc (button_press acc.1 LogicalButton.minus) else acc
  let acc := if button = 9 then thenCall acc (button_press acc.1 LogicalButton.plus) else acc
  let acc := if button = 10 then thenCall acc (button_press acc.1 LogicalButton.l_stick) else acc
  let acc := if button = 11 then thenCall acc (button_press acc.1 LogicalButton.r_stick) else acc
  let acc := if button = 12 then thenCall acc (button_press acc.1 LogicalButton.home) else acc
  let acc := if button = 13 then thenCall acc (button_press acc.1 LogicalButton.capture) else acc
  acc

/-- The `JOYBUTTONUP` branch of `gamepad_proxy` (source lines 137-179): the
same fourteen `if` tests, each awaiting `button_release` with the same
logical button as the down branch. -/
def handleButtonUp (s : ControllerState) (button : Nat) :
    ControllerState × List Op :=
  let acc := (s, ([] : List Op))
  let acc := if button = 0 then thenCall acc (button_release acc.1 LogicalButton.y) else acc
  let acc := if button = 1 then thenCall acc (button_release acc.1 LogicalButton.b) else acc
  let acc := if button = 2 then thenCall acc (button_release acc.1 LogicalButton.a) else acc
  let acc := if button = 3 then thenCall acc (button_release acc.1 LogicalButton.x) else acc
  let acc := if button = 4 then thenCall acc (button_release acc.1 LogicalButton.l) else acc
  let acc := if button = 5 then thenCall acc (button_release acc.1 LogicalButton.r) else acc
  let acc := if button = 6 then thenCall acc (button_release acc.1 LogicalButton.zl) else acc
  let acc := if button = 7 then thenCall acc (button_release acc.1 LogicalButton.zr) else acc
  let acc := if button = 8 then thenCall acc (button_release acc.1 LogicalButton.minus) else acc
  let acc := if button = 9 then thenCall acc (button_release acc.1 LogicalButton.plus) else acc
  let acc := if button = 10 then thenCall acc (button_release acc.1 LogicalButton.l_stick) else acc
  let acc := if button = 11 then thenCall acc (button_release acc.1 LogicalButton.r_stick) else acc
  let acc := if button = 12 then thenCall acc (button_release acc.1 LogicalButton.home) else acc
  let acc := if button = 13 then thenCall acc (button_release acc.1 LogicalButton.capture) else acc
  acc

/-- Dispatch on `event.type` inside the `for event in pygame.event.get()`
body: the three `if event.type == ...` blocks of `gamepad_proxy` (the event
types are mutually exclusive, so the blocks are a case split). -/
def handleEvent (s : ControllerState) (e : PhysEvent) : ControllerState × List Op :=
  match e with
  | PhysEvent.axisMotion axis value => handleAxis s axis value
  | PhysEvent.buttonDown button => handleButtonDown s button
  | PhysEvent.buttonUp button => handleButtonUp s button

/-- The `for event in pygame.event.get()` loop over one poll batch: events are
processed in arrival order, threading the controller state and concatenating
the operation traces. -/
def processBatch (s : ControllerState) (events : List PhysEvent) :
    ControllerState × List Op :=
  match events with
  | [] => (s, [])
  | e :: rest =>
    let r := handleEvent s e
    let r2 := processBatch r.1 rest
    (r2.1, r.2 ++ r2.2)

/-- Result of running the outer `while gamepad_loop:` loop over a finite
prefix of the poll-batch stream: the value of the `gamepad_loop` flag, the
controller state, and the trace of collaborator calls. -/
structure LoopResult where
  gamepad_loop : Bool
  state : ControllerState
  trace : List Op
  deriving DecidableEq

/-- One iteration of the `while` body (source lines 72-179): poll
(`pygame.event.get()`, recorded as `Op.poll`), then process the batch.  The
body contains no assignment to `gamepad_loop`, no `break` and no `raise`, so
the flag leaves the iteration exactly as it entered. -/
def loopIter (gamepad_loop : Bool) (s : ControllerState) (batch : List PhysEvent) :
    LoopResult :=
  let r := processBatch s batch
  { gamepad_loop := gamepad_loop, state := r.1, trace := Op.poll :: r.2 }

/-- The `while gamepad_loop:` loop (source lines 71-179), run over a finite
list of poll batches supplied by the environment: while the flag holds,
iterate; once it is false, stop.  The source initializes the flag to `True`
(`gamepad_loop = True`, line 71). -/
def runLoop (gamepad_loop : Bool) (s : ControllerState)
    (batches : List (List PhysEvent)) : LoopResult :=
  match batches with
  | [] => { gamepad_loop := gamepad_loop, state := s, trace := [] }
  | batch :: rest =>
    if gamepad_loop then
      let r := loopIter gamepad_loop s batch
      let r2 := runLoop r.gamepad_loop r.state rest
      { gamepad_loop := r2.gamepad_loop, state := r2.state, trace := r.trace ++ r2.trace }
    else
      { gamepad_loop := gamepad_loop, state := s, trace := [] }

/-! ### Derived mapping tables and trace measures -/

/-- The button mapping induced by the `JOYBUTTONDOWN` / `JOYBUTTONUP` `if`
chains of the source: indices 0-13 in order, everything else unmapped. -/
def buttonOf : Nat → Option LogicalButton
  | 0 => some LogicalButton.y
  | 1 => some LogicalButton.b
  | 2 => some LogicalButton.a
  | 3 => some LogicalButton.x
  | 4 => some LogicalButton.l
  | 5 => some LogicalButton.r
  | 6 => some LogicalButton.zl
  | 7 => some LogicalButton.zr
  | 8 => some LogicalButton.minus
  | 9 => some LogicalButton.plus
  | 10 => some LogicalButton.l_stick
  | 11 => some LogicalButton.r_stick
  | 12 => some LogicalButton.home
  | 13 => some LogicalButton.capture
  | _ => none

/-- The axis binding induced by the `JOYAXISMOTION` `if` chain of the source:
axes 0-3 to (left, horizontal), (left, vertical), (right, horizontal),
(right, vertical); everything else unmapped. -/
def axisBinding : Nat → Option (StickSide × StickDir)
  | 0 => some (StickSide.left, StickDir.horizontal)
  | 1 => some (StickSide.left, StickDir.vertical)
  | 2 => some (StickSide.right, StickDir.horizontal)
  | 3 => some (StickSide.right, StickDir.vertical)
  | _ => none

/-- The logical buttons in the fixed order in which the source's `if` chain
binds them to indices 0-13. -/
def buttonOrder : List LogicalButton :=
  [LogicalButton.y, LogicalButton.b, LogicalButton.a, LogicalButton.x,
   LogicalButton.l, LogicalButton.r, LogicalButton.zl, LogicalButton.zr,
   LogicalButton.minus, LogicalButton.plus, LogicalButton.l_stick,
   LogicalButton.r_stick, LogicalButton.home, LogicalButton.capture]

/-- The stick bindings in the fixed order in which the source's `if` chain
binds them to axes 0-3. -/
def axisOrder : List (StickSide × StickDir) :=
  [(StickSide.left, StickDir.horizontal), (StickSide.left, StickDir.vertical),
   (StickSide.right, StickDir.horizontal), (StickSide.right, StickDir.vertical)]

/-- What one `JOYBUTTONDOWN` dispatch amounts to, as a function of the table
entry: a `button_press` of the bound button, or nothing. -/
def buttonDownSpec (s : ControllerState) : Option LogicalButton → ControllerState × List Op
  | some btn => button_press s btn
  | none => (s, [])

/-- What one `JOYBUTTONUP` dispatch amounts to, as a function of the table
entry: a `button_release` of the bound button, or nothing. -/
def buttonUpSpec (s : ControllerState) : Option LogicalButton → ControllerState × List Op
  | some btn => button_release s btn
  | none => (s, [])

/-- Write one stick coordinate of the controller state. -/
def setCoord (side : StickSide) (dir : StickDir) (value : ℚ) (s : ControllerState) :
    ControllerState :=
  match side, dir with
  | StickSide.left, StickDir.horizontal =>
    { s with l_stick_state := s.l_stick_state.set_h value }
  | StickSide.left, StickDir.vertical =>
    { s with l_stick_state := s.l_stick_state.set_v value }
  | StickSide.right, StickDir.horizontal =>
    { s with r_stick_state := s.r_stick_state.set_h value }
  | StickSide.right, StickDir.vertical =>
    { s with r_stick_state := s.r_stick_state.set_v value }

/-- Read one stick coordinate of the controller state. -/
def coordOf (side : StickSide) (dir : StickDir) (s : ControllerState) : ℚ :=
  match side, dir with
  | StickSide.left, StickDir.horizontal => s.l_stick_state.h
  | StickSide.left, StickDir.vertical => s.l_stick_state.v
  | StickSide.right, StickDir.horizontal => s.r_stick_state.h
  | StickSide.right, StickDir.vertical => s.r_stick_state.v

/-- What one `JOYAXISMOTION` dispatch amounts to, as a function of the table
entry: write the raw value to the bound coordinate, or nothing. -/
def axisSpec (s : ControllerState) (value : ℚ) :
    Option (StickSide × StickDir) → ControllerState × List Op
  | some (side, dir) => (setCoord side dir value s, [Op.setAxis side dir value])
  | none => (s, [])

/-- Is this operation a `send()` call? -/
def isSend : Op → Bool
  | Op.send => true
  | _ => false

/-- Is this operation a logging call? -/
def isLog : Op → Bool
  | Op.logMsg => true
  | _ => false

/-- Is this operation an awaited collaborator call (`await button_press`,
`await button_release`, `await send` are the only `await` expressions the
loop could execute)? -/
def isAwaitedCall : Op → Bool
  | Op.press _ => true
  | Op.release _ => true
  | Op.send => true
  | _ => false

/-- Number of `send()` calls in a trace. -/
def countSend (ops : List Op) : Nat := ops.countP (fun o => isSend o)

/-- Number of logging calls in a trace. -/
def countLog (ops : List Op) : Nat := ops.countP (fun o => isLog o)

/-- Number of awaited collaborator calls in a trace. -/
def countAwait (ops : List Op) : Nat := ops.countP (fun o => isAwaitedCall o)

/-- Number of axis-motion events in a batch. -/
def countAxisMotion (events : List PhysEvent) : Nat :=
  events.countP (fun e => match e with
    | PhysEvent.axisMotion _ _ => true
    | _ => false)

/-- Is the event a button event? -/
def isButtonEvent : PhysEvent → Bool
  | PhysEvent.buttonDown _ => true
  | PhysEvent.buttonUp _ => true
  | _ => false

/-- A batch containing no button events. -/
def noButtonEvents (events : List PhysEvent) : Bool :=
  events.all (fun e => !(isButtonEvent e))

/-- Scan a trace: `sat` records whether, since the previous `poll`, at least
one awaited call has been executed; every re-poll must find `sat` set. -/
def scanRepoll : List Op → Bool → Bool
  | [], _ => true
  | Op.poll :: rest, sat => sat && scanRepoll rest false
  | o :: rest, sat => scanRepoll rest (sat || isAwaitedCall o)

/-- Does the trace reach every re-poll only after executing at least one
awaited call since the previous poll (a necessary condition for having
yielded control to the cooperative scheduler between polls)? -/
def yieldsBeforeEveryRepoll (ops : List Op) : Bool :=
  scanRepoll ops true

/-- A concrete controller state used to instantiate runs: sticks at 0,
no button held. -/
def sampleState : ControllerState :=
  { l_stick_state := { h := 0, v := 0 }, r_stick_state := { h := 0, v := 0 },
    held := ∅ }

/-- Follows the spec's words (section 4.2), for comparison with the source:
`output = round((raw + 1.0) * 2047)`. -/
def specRescale (raw : ℚ) : ℤ :=
  round ((raw + 1) * 2047)

/-! ### Teardown of `_main` (source lines 232-236) -/

/-- Abnormal ways the CLI run can end: the Translation Loop's connection-lost
termination, or any other fatal error propagating out of `cli.run()`. -/
inductive FatalError
  | connectionLost
  | otherFatal
  deriving DecidableEq

/-- The two actions of the `finally:` block of `_main` (source lines 234-236):
`logger.info('Stopping communication...')` and `await transport.close()`. -/
inductive MainOp
  | logStopping
  | closeTransport
  deriving DecidableEq

/-- The `try: await cli.run() finally: ...` of `_main` (source lines 232-236):
the body's outcome is a parameter (`cli.run` is external); whatever it is, the
`finally:` block runs its two actions and the outcome is then propagated
unchanged. -/
def runCliWithTeardown (cliOutcome : Except FatalError Unit) :
    Except FatalError Unit × List MainOp :=
  (cliOutcome, [MainOp.logStopping, MainOp.closeTransport])

/-- Number of `transport.close()` calls in a teardown trace. -/
def countClose (ops : List MainOp) : Nat :=
  ops.countP (fun o => match o with
    | MainOp.closeTransport => true
    | _ => false)

/-! ### Characterization lemmas: the `if` chains as table lookups -/

lemma handleButtonDown_eq (s : ControllerState) (i : Nat) :
    handleButtonDown s i = buttonDownSpec s (buttonOf i) := by
  rcases Nat.lt_or_ge i 14 with h | h
  · interval_cases i <;> rfl
  · obtain ⟨n, rfl⟩ : ∃ n, i = n + 14 := ⟨i - 14, by omega⟩
    rfl

lemma handleButtonUp_eq (s : ControllerState) (i : Nat) :
    handleButtonUp s i = buttonUpSpec s (buttonOf i) := by
  rcases Nat.lt_or_ge i 14 with h | h
  · interval_cases i <;> rfl
  · obtain ⟨n, rfl⟩ : ∃ n, i = n + 14 := ⟨i - 14, by omega⟩
    rfl

lemma handleAxis_eq (s : ControllerState) (a : Nat) (value : ℚ) :
    handleAxis s a value = axisSpec s value (axisBinding a) := by
  rcases Nat.lt_or_ge a 4 with h | h
  · interval_cases a <;> rfl
  · obtain ⟨n, rfl⟩ : ∃ n, a = n + 4 := ⟨a - 4, by omega⟩
    rfl

/-! ### Helper lemmas about traces -/

lemma countSend_handleEvent (s : ControllerState) (e : PhysEvent) :
    countSend (handleEvent s e).2 = 0 := by
  cases e with
  | axisMotion a value =>
    rcases hb : axisBinding a with _ | ⟨side, dir⟩ <;>
      simp [handleEvent, handleAxis_eq, hb, axisSpec, countSend, isSend]
  | buttonDown i =>
    rcases hb : buttonOf i with _ | btn <;>
      simp [handleEvent, handleButtonDown_eq, hb, buttonDownSpec, button_press,
        countSend, isSend]
  | buttonUp i =>
    rcases hb : buttonOf i with _ | btn <;>
      simp [handleEvent, handleButtonUp_eq, hb, buttonUpSpec, button_release,
        countSend, isSend]

lemma countLog_handleEvent (s : ControllerState) (e : PhysEvent) :
    countLog (handleEvent s e).2 = 0 := by
  cases e with
  | axisMotion a value =>
    rcases hb : axisBinding a with _ | ⟨side, dir⟩ <;>
      simp [handleEvent, handleAxis_eq, hb, axisSpec, countLog, isLog]
  | buttonDown i =>
    rcases hb : buttonOf i with _ | btn <;>
      simp [handleEvent, handleButtonDown_eq, hb, buttonDownSpec, button_press,
        countLog, isLog]
  | buttonUp i =>
    rcases hb : buttonOf i with _ | btn <;>
      simp [handleEvent, handleButtonUp_eq, hb, buttonUpSpec, button_release,
        countLog, isLog]

lemma countSend_processBatch (s : ControllerState) (events : List PhysEvent) :
    countSend (processBatch s events).2 = 0 := by
  induction events generalizing s with
  | nil => rfl
  | cons e rest ih =>
    have h1 := countSend_handleEvent s e
    have h2 := ih (handleEvent s e).1
    simp [processBatch, countSend, List.countP_append] at h1 h2 ⊢
    exact ⟨h1, h2⟩

lemma countLog_processBatch (s : ControllerState) (events : List PhysEvent) :
    countLog (processBatch s events).2 = 0 := by
  induction events generalizing s with
  | nil => rfl
  | cons e rest ih =>
    have h1 := countLog_handleEvent s e
    have h2 := ih (handleEvent s e).1
    simp [processBatch, countLog, List.countP_append] at h1 h2 ⊢
    exact ⟨h1, h2⟩

lemma runLoop_flag_true (s : ControllerState) (batches : List (List PhysEvent)) :
    (runLoop true s batches).gamepad_loop = true := by
  induction batches generalizing s with
  | nil => rfl
  | cons batch rest ih =>
    simpa [runLoop, loopIter] using ih (processBatch s batch).1

lemma countSend_runLoop (s : ControllerState) (batches : List (List PhysEvent)) :
    countSend (runLoop true s batches).trace = 0 := by
  induction batches generalizing s with
  | nil => rfl
  | cons batch rest ih =>
    have h1 := countSend_processBatch s batch
    have h2 := ih (processBatch s batch).1
    simp [runLoop, loopIter, countSend, isSend, List.countP_append] at h1 h2 ⊢
    exact ⟨h1, h2⟩

lemma countLog_runLoop (s : ControllerState) (batches : List (List PhysEvent)) :
    countLog (runLoop true s batches).trace = 0 := by
  induction batches generalizing s with
  | nil => rfl
  | cons batch rest ih =>
    have h1 := countLog_processBatch s batch
    have h2 := ih (processBatch s batch).1
    simp [runLoop, loopIter, countLog, isLog, List.countP_append] at h1 h2 ⊢
    exact ⟨h1, h2⟩

lemma countAwait_handleEvent_axis (s : ControllerState) (a : Nat) (value : ℚ) :
    countAwait (handleEvent s (PhysEvent.axisMotion a value)).2 = 0 := by
  rcases hb : axisBinding a with _ | ⟨side, dir⟩ <;>
    simp [handleEvent, handleAxis_eq, hb, axisSpec, countAwait, isAwaitedCall]

lemma specRescale_neg_one : specRescale (-1) = 0 := by
  have h : ((-1 : ℚ) + 1) * 2047 = ((0 : ℤ) : ℚ) := by norm_num
  rw [specRescale, h, round_intCast]

lemma specRescale_one : specRescale 1 = 4094 := by
  have h : ((1 : ℚ) + 1) * 2047 = ((4094 : ℤ) : ℚ) := by norm_num
  rw [specRescale, h, round_intCast]

/-! ### Claims -/

/-- Claim C1, as amended: the loop never triggers `send()` at all.  An
axis-motion event mutates the corresponding stick coordinate with no
subsequent `send()` (the `JOYAXISMOTION` branch contains no send call), and
button events invoke press/release, which do not send; hence in any poll
batch the number of `send()` calls is zero, not the number of axis-motion
events. -/
theorem claim1_no_send_in_batch (s : ControllerState) (events : List PhysEvent) :
    countSend (processBatch s events).2 = 0 :=
  countSend_processBatch s events

theorem claim1_witness :
    countSend (processBatch sampleState [PhysEvent.axisMotion 0 1]).2 = 0 :=
  claim1_no_send_in_batch sampleState [PhysEvent.axisMotion 0 1]

/-- Claim C1 counterexample: for the Scenario D batch (two Button Down events
for distinct buttons followed by one Axis Motion), the number of `send()`
calls the loop makes is not the number of axis-motion events: it is 0, not
1. -/
theorem claim1_cex :
    countSend (processBatch sampleState
      [PhysEvent.buttonDown 0, PhysEvent.buttonDown 1,
       PhysEvent.axisMotion 0 1]).2 ≠
    countAxisMotion
      [PhysEvent.buttonDown 0, PhysEvent.buttonDown 1,
       PhysEvent.axisMotion 0 1] := by
  decide

/-- Claim C2, as amended: the loop never calls `send()`, so a connection-lost
failure of `send()` cannot arise inside it and no condition ends the loop
during normal operation: `gamepad_loop` is still true after any finite number
of poll batches, and the trace contains no `send()` attempt and no log
call. -/
theorem claim2_loop_never_terminates (s : ControllerState)
    (batches : List (List PhysEvent)) :
    (runLoop true s batches).gamepad_loop = true ∧
    countSend (runLoop true s batches).trace = 0 ∧
    countLog (runLoop true s batches).trace = 0 :=
  ⟨runLoop_flag_true s batches, countSend_runLoop s batches,
    countLog_runLoop s batches⟩

theorem claim2_witness :
    (runLoop true sampleState [[PhysEvent.axisMotion 0 1]]).gamepad_loop = true ∧
    countSend (runLoop true sampleState [[PhysEvent.axisMotion 0 1]]).trace = 0 ∧
    countLog (runLoop true sampleState [[PhysEvent.axisMotion 0 1]]).trace = 0 :=
  claim2_loop_never_terminates sampleState [[PhysEvent.axisMotion 0 1]]

/-- Claim C2 counterexample: in a run over two poll batches each carrying an
axis-motion event, the loop attempts no `send()` (so a connection-lost
`send()` failure cannot occur, whatever the connection's state), emits no log,
keeps `gamepad_loop` true, and keeps polling and mutating: the second batch's
value 0 is the one left in the stick coordinate.  The claimed
log / transition-to-TERMINATED / exit behaviour does not exist in the
source. -/
theorem claim2_cex :
    (runLoop true sampleState
      [[PhysEvent.axisMotion 0 1], [PhysEvent.axisMotion 0 0]]).gamepad_loop = true ∧
    (runLoop true sampleState
      [[PhysEvent.axisMotion 0 1],
       [PhysEvent.axisMotion 0 0]]).state.l_stick_state.h = 0 ∧
    countSend (runLoop true sampleState
      [[PhysEvent.axisMotion 0 1], [PhysEvent.axisMotion 0 0]]).trace = 0 ∧
    countLog (runLoop true sampleState
      [[PhysEvent.axisMotion 0 1], [PhysEvent.axisMotion 0 0]]).trace = 0 :=
  ⟨rfl, rfl, rfl, rfl⟩

/-- Claim C3, as amended: for every axis-motion event with a mapped axis
index, the value written to the corresponding stick coordinate is the raw
event value itself, unmodified — no `round((raw + 1.0) * 2047)` rescaling and
no inversion is applied anywhere in the loop. -/
theorem claim3_raw_value_stored (s : ControllerState) (a : Nat) (side : StickSide)
    (dir : StickDir) (value : ℚ) (hbind : axisBinding a = some (side, dir)) :
    coordOf side dir (handleAxis s a value).1 = value := by
  rw [handleAxis_eq, hbind]
  rcases side <;> rcases dir <;> rfl

theorem claim3_witness :
    axisBinding 0 = some (StickSide.left, StickDir.horizontal) ∧
    coordOf StickSide.left StickDir.horizontal (handleAxis sampleState 0 1).1 = 1 :=
  ⟨rfl, claim3_raw_value_stored sampleState 0 StickSide.left StickDir.horizontal 1 rfl⟩

/-- Claim C3 counterexample: for the axis-motion event (axis 0, raw value -1)
the stored coordinate is -1, while the claimed formula gives
`specRescale (-1) = 0`; the stored value is not the rescaled integer.  (The
claim is also internally inconsistent: at raw value 1 its formula gives
`round((1 + 1) * 2047) = 4094`, not the claimed 4095.) -/
theorem claim3_cex :
    coordOf StickSide.left StickDir.horizontal
      (handleAxis sampleState 0 (-1)).1 = -1 ∧
    specRescale (-1) = 0 ∧
    ((-1 : ℚ) ≠ ((0 : ℤ) : ℚ)) ∧
    specRescale 1 = 4094 := by
  refine ⟨rfl, specRescale_neg_one, by norm_num, specRescale_one⟩

/-- Claim C4, as amended: vertical-bound and horizontal-bound axes are
treated identically — the raw value is stored unmodified in both cases; no
negation of the raw value happens for vertical axes. -/
theorem claim4_no_vertical_inversion (s : ControllerState) (value : ℚ) :
    coordOf StickSide.left StickDir.vertical (handleAxis s 1 value).1 = value ∧
    coordOf StickSide.right StickDir.vertical (handleAxis s 3 value).1 = value ∧
    coordOf StickSide.left StickDir.horizontal (handleAxis s 0 value).1 = value ∧
    coordOf StickSide.right StickDir.horizontal (handleAxis s 2 value).1 = value :=
  ⟨rfl, rfl, rfl, rfl⟩

theorem claim4_witness :
    coordOf StickSide.left StickDir.vertical (handleAxis sampleState 1 1).1 = 1 ∧
    coordOf StickSide.right StickDir.vertical (handleAxis sampleState 3 1).1 = 1 ∧
    coordOf StickSide.left StickDir.horizontal (handleAxis sampleState 0 1).1 = 1 ∧
    coordOf StickSide.right StickDir.horizontal (handleAxis sampleState 2 1).1 = 1 :=
  claim4_no_vertical_inversion sampleState 1

/-- Claim C4 counterexample: axis 1 is vertical-bound; for raw value 1 the
stored coordinate is 1, while the claim requires `rescale(-raw)`, i.e.
`specRescale (-1) = 0`; 1 is neither that nor even the un-rescaled negation
-1. -/
theorem claim4_cex :
    coordOf StickSide.left StickDir.vertical (handleAxis sampleState 1 1).1 = 1 ∧
    specRescale (-1) = 0 ∧
    ((1 : ℚ) ≠ ((0 : ℤ) : ℚ)) ∧
    ((1 : ℚ) ≠ -1) := by
  refine ⟨rfl, specRescale_neg_one, by norm_num, by norm_num⟩

/-- Claim C5, as amended: a polled event whose button index or axis index is
absent from the mapping (button index at least 14, axis index at least 4)
is silently ignored — it causes no mutation of the Virtual Controller State,
no collaborator call and no error, and processing continues with the
subsequent events of the batch; no `UnmappedIndex` condition is raised or
surfaced. -/
theorem claim5_unmapped_silently_ignored (s : ControllerState) (i a : Nat)
    (value : ℚ) (rest : List PhysEvent) (hi : 14 ≤ i) (ha : 4 ≤ a) :
    handleEvent s (PhysEvent.buttonDown i) = (s, []) ∧
    handleEvent s (PhysEvent.buttonUp i) = (s, []) ∧
    handleEvent s (PhysEvent.axisMotion a value) = (s, []) ∧
    processBatch s (PhysEvent.buttonDown i :: rest) = processBatch s rest := by
  obtain ⟨n, rfl⟩ : ∃ n, i = n + 14 := ⟨i - 14, by omega⟩
  obtain ⟨m, rfl⟩ : ∃ m, a = m + 4 := ⟨a - 4, by omega⟩
  exact ⟨rfl, rfl, rfl, rfl⟩

theorem claim5_witness :
    (14 : Nat) ≤ 14 ∧ (4 : Nat) ≤ 4 ∧
    handleEvent sampleState (PhysEvent.buttonDown 14) = (sampleState, []) :=
  ⟨by decide, by decide,
    (claim5_unmapped_silently_ignored sampleState 14 4 0 [] (by decide)
      (by decide)).1⟩

/-- Claim C5 counterexample: polling button index 14 (absent from the table)
raises nothing and is ignored, and processing continues: in the batch
[Button Down 14, Button Down 0] the unmapped event leaves the state untouched
and emits no call, and the subsequent mapped event is still processed (the
held set ends as the singleton y and the trace is exactly its press), instead
of an `UnmappedIndex` being surfaced immediately. -/
theorem claim5_cex :
    handleEvent sampleState (PhysEvent.buttonDown 14) = (sampleState, []) ∧
    (processBatch sampleState
      [PhysEvent.buttonDown 14, PhysEvent.buttonDown 0]).1.held =
      ({LogicalButton.y} : Finset LogicalButton) ∧
    (processBatch sampleState
      [PhysEvent.buttonDown 14, PhysEvent.buttonDown 0]).2 =
      [Op.press LogicalButton.y] :=
  ⟨rfl, rfl, rfl⟩

/-- Claim C6, as amended: a poll batch containing no button events — in
particular the empty batch — is processed without executing a single `await`
(the only `await` expressions in the loop body are the
`button_press` / `button_release` calls of the button branches), so the loop
reaches the re-poll without any suspension point at which the cooperative
scheduler could run other tasks. -/
theorem claim6_no_await_without_buttons (s : ControllerState)
    (events : List PhysEvent) (h : noButtonEvents events = true) :
    countAwait (processBatch s events).2 = 0 := by
  induction events generalizing s with
  | nil => rfl
  | cons e rest ih =>
    simp only [noButtonEvents, List.all_cons, Bool.and_eq_true] at h
    have h2 : countAwait (processBatch (handleEvent s e).1 rest).2 = 0 :=
      ih (handleEvent s e).1 h.2
    have h1 : countAwait (handleEvent s e).2 = 0 := by
      cases e with
      | axisMotion a value => exact countAwait_handleEvent_axis s a value
      | buttonDown i => simp [isButtonEvent] at h
      | buttonUp i => simp [isButtonEvent] at h
    simp [processBatch, countAwait, List.countP_append] at h1 h2 ⊢
    exact ⟨h1, h2⟩

theorem claim6_witness :
    noButtonEvents [PhysEvent.axisMotion 0 1] = true ∧
    countAwait (processBatch sampleState [PhysEvent.axisMotion 0 1]).2 = 0 :=
  ⟨by decide,
    claim6_no_await_without_buttons sampleState [PhysEvent.axisMotion 0 1]
      (by decide)⟩

/-- Claim C6 counterexample: running the loop over two consecutive empty poll
batches produces the trace [poll, poll] — the loop re-polls immediately with
no awaited call (and no operation at all) between the polls, so it does not
yield control back to the cooperative scheduler after an empty batch. -/
theorem claim6_cex :
    yieldsBeforeEveryRepoll
      (runLoop true sampleState [[], []]).trace = false ∧
    (runLoop true sampleState [[], []]).trace = [Op.poll, Op.poll] :=
  ⟨rfl, rfl⟩

/-- Claim C7 (confirmed): the mapping induced by the dispatch chains is total
and deterministic on the supported range: button indices 0-13 map, in order,
to y, b, a, x, l, r, zl, zr, minus, plus, l_stick, r_stick, home, capture
(indices outside the range map to nothing), axes 0-3 map, in order, to
(left, horizontal), (left, vertical), (right, horizontal), (right, vertical),
and the button-down, button-up and axis-motion handlers all resolve an index
through that same table: down presses exactly the bound button, up releases
exactly the same bound button, axis motion writes exactly the bound
coordinate. -/
theorem claim7_mapping_table (s : ControllerState) (value : ℚ) (i a : Nat) :
    buttonOf i = buttonOrder.get? i ∧
    axisBinding a = axisOrder.get? a ∧
    handleButtonDown s i = buttonDownSpec s (buttonOf i) ∧
    handleButtonUp s i = buttonUpSpec s (buttonOf i) ∧
    handleAxis s a value = axisSpec s value (axisBinding a) := by
  refine ⟨?_, ?_, handleButtonDown_eq s i, handleButtonUp_eq s i,
    handleAxis_eq s a value⟩
  · rcases Nat.lt_or_ge i 14 with h | h
    · interval_cases i <;> rfl
    · obtain ⟨n, rfl⟩ : ∃ n, i = n + 14 := ⟨i - 14, by omega⟩
      rfl
  · rcases Nat.lt_or_ge a 4 with h | h
    · interval_cases a <;> rfl
    · obtain ⟨n, rfl⟩ : ∃ n, a = n + 4 := ⟨a - 4, by omega⟩
      rfl

theorem claim7_witness :
    buttonOf 0 = buttonOrder.get? 0 :=
  (claim7_mapping_table sampleState 1 0 0).1

/-- Claim C8, as amended: for every mapped button index, processing Button
Down then Button Up for that index restores the held-button set, provided the
bound logical button was not already held before the Button Down (if it was
already held — e.g. pressed earlier with no intervening release — the pair
removes it, so the proviso is necessary). -/
theorem claim8_down_up_round_trip (s : ControllerState) (i : Nat)
    (btn : LogicalButton) (hmap : buttonOf i = some btn) (hheld : btn ∉ s.held) :
    (processBatch s [PhysEvent.buttonDown i, PhysEvent.buttonUp i]).1.held =
      s.held := by
  simp only [processBatch, handleEvent, handleButtonDown_eq, handleButtonUp_eq,
    hmap, buttonDownSpec, buttonUpSpec, button_press, button_release]
  exact Finset.erase_insert hheld

theorem claim8_witness :
    buttonOf 0 = some LogicalButton.y ∧
    LogicalButton.y ∉ sampleState.held ∧
    (processBatch sampleState
      [PhysEvent.buttonDown 0, PhysEvent.buttonUp 0]).1.held = sampleState.held :=
  ⟨rfl, by decide,
    claim8_down_up_round_trip sampleState 0 LogicalButton.y rfl (by decide)⟩

/-- Claim C8 counterexample: starting from a state in which y is already held
(and with no intervening press of y between the Down and the Up), processing
Button Down 0 then Button Up 0 leaves the held-button set empty, not equal to
the original singleton y: the down/up pair is not a round trip from such a
state. -/
theorem claim8_cex :
    (processBatch
      { l_stick_state := { h := 0, v := 0 },
        r_stick_state := { h := 0, v := 0 },
        held := {LogicalButton.y} }
      [PhysEvent.buttonDown 0, PhysEvent.buttonUp 0]).1.held =
      (∅ : Finset LogicalButton) ∧
    ({LogicalButton.y} : Finset LogicalButton) ≠ (∅ : Finset LogicalButton) := by
  refine ⟨by decide, by decide⟩

/-- Claim C9 (confirmed): `_main` runs `cli.run()` inside `try/finally` whose
`finally:` block logs and then calls `transport.close()`; thus on every exit
path of the CLI run — normal return, the Translation Loop having ended via
connection loss, or any other fatal error propagating out — `close()` is
invoked exactly once, and the outcome is then propagated unchanged. -/
theorem claim9_close_exactly_once (outcome : Except FatalError Unit) :
    countClose (runCliWithTeardown outcome).2 = 1 ∧
    (runCliWithTeardown outcome).1 = outcome :=
  ⟨rfl, rfl⟩

theorem claim9_witness :
    countClose (runCliWithTeardown (Except.ok ())).2 = 1 :=
  (claim9_close_exactly_once (Except.ok ())).1

/-- Claim C10 (confirmed): processing one axis-motion event with a mapped
axis index writes (the raw value) to the bound stick coordinate only: every
other stick coordinate, and the held-button set, are left unchanged. -/
theorem claim10_axis_frame (s : ControllerState) (a : Nat) (side : StickSide)
    (dir : StickDir) (value : ℚ) (hbind : axisBinding a = some (side, dir)) :
    coordOf side dir (handleAxis s a value).1 = value ∧
    (∀ side2 dir2, (side2, dir2) ≠ (side, dir) →
      coordOf side2 dir2 (handleAxis s a value).1 = coordOf side2 dir2 s) ∧
    (handleAxis s a value).1.held = s.held := by
  rw [handleAxis_eq, hbind]
  refine ⟨?_, ?_, ?_⟩
  · rcases side <;> rcases dir <;> rfl
  · rintro side2 dir2 hne
    rcases side <;> rcases dir <;> rcases side2 <;> rcases dir2 <;>
      first
        | exact absurd rfl hne
        | rfl
  · rcases side <;> rcases dir <;> rfl

theorem claim10_witness :
    axisBinding 0 = some (StickSide.left, StickDir.horizontal) ∧
    coordOf StickSide.left StickDir.horizontal (handleAxis sampleState 0 1).1 = 1 ∧
    coordOf StickSide.right StickDir.vertical (handleAxis sampleState 0 1).1 =
      coordOf StickSide.right StickDir.vertical sampleState ∧
    (handleAxis sampleState 0 1).1.held = sampleState.held := by
  have h := claim10_axis_frame sampleState 0 StickSide.left StickDir.horizontal 1 rfl
  exact ⟨rfl, h.1, h.2.1 StickSide.right StickDir.vertical (by decide), h.2.2⟩

end ShockBoy
